import Mathlib

/-!
Shallow embedding of `turbinia/lib/utils.py`: command construction for the
Plaso `image_export.py` tool, the local/containerized execution orchestration
of `_image_export`, and the password-hash bruteforcing helper
`bruteforce_password_hashes`, together with theorems settling the claims
about their behaviour.

External effects (filesystem probes, subprocess execution, the container
manager collaborator) are modelled as explicit environment records; Python
exceptions become an `Except` error type distinguishing the domain exception
`TurbiniaException` from Python's built-in `ValueError`.
-/

set_option linter.unusedVariables false

namespace Turbinia

/-- Python exceptions that can escape the modelled functions: the domain
exception type `TurbiniaException` (carrying its message) and the built-in
`ValueError` raised by a failed tuple unpacking. -/
inductive PyError where
  | turbiniaException (msg : String)
  | valueError
deriving DecidableEq, Repr

/-- Python `sep.join(parts)` for a string separator. -/
def pyJoin (sep : String) : List String → String
  | [] => ""
  | [s] => s
  | s :: rest => s ++ sep ++ pyJoin sep rest

/-- Helper for `pySplitChar`: accumulates the current field (reversed). -/
def pySplitCharAux (sep : Char) : List Char → List Char → List String
  | [], acc => [String.mk acc.reverse]
  | c :: cs, acc =>
    if c = sep then String.mk acc.reverse :: pySplitCharAux sep cs []
    else pySplitCharAux sep cs (c :: acc)

/-- Python `s.split(sep)` for a single-character separator: keeps empty
fields, so consecutive separators yield empty strings. -/
def pySplitChar (sep : Char) (s : String) : List String :=
  pySplitCharAux sep s.toList []

/-- `--credential type:data` pairs appended for each credential, in input
order (the `for credential_type, credential_data in credentials` loop of
`extract_artifacts` / `extract_files`). -/
def credentialArgs : List (String × String) → List String
  | [] => []
  | (ctype, cdata) :: rest =>
      ["--credential", ctype ++ ":" ++ cdata] ++ credentialArgs rest

/-- The argument list built by `extract_artifacts` (utils.py lines 106-118):
base command with `--artifact_filters`, conditional credential arguments,
then the disk path appended last. -/
def extractArtifactsCmd (artifact_names : List String) (disk_path : String)
    (output_dir : String) (credentials : List (String × String)) : List String :=
  let artifacts := pyJoin "," artifact_names
  let image_export_cmd :=
    ["image_export.py", "--artifact_filters", artifacts, "--write", output_dir,
     "--partitions", "all", "--volumes", "all", "--unattended"]
  let image_export_cmd :=
    if credentials.isEmpty then image_export_cmd
    else image_export_cmd ++ credentialArgs credentials
  image_export_cmd ++ [disk_path]

/-- The argument list built by `extract_files` (utils.py lines 142-152):
base command with `--name` and no `--unattended`, conditional credential
arguments, then the disk path appended last. -/
def extractFilesCmd (file_name : String) (disk_path : String)
    (output_dir : String) (credentials : List (String × String)) : List String :=
  let image_export_cmd :=
    ["image_export.py", "--name", file_name, "--write", output_dir,
     "--partitions", "all", "--volumes", "all"]
  let image_export_cmd :=
    if credentials.isEmpty then image_export_cmd
    else image_export_cmd ++ credentialArgs credentials
  image_export_cmd ++ [disk_path]

/-- Python `os.path.join(a, b)` for the simple cases used here (b relative). -/
def osPathJoin (a b : String) : String :=
  if a = "" then b
  else if a.toList.getLast? = some '/' then a ++ b
  else a ++ "/" ++ b

/-- A per-job entry of the dependency map returned by
`config.ParseDependencies()`: optional docker image and optional
job-specific timeout. -/
structure JobDependency where
  docker_image : Option String
  timeout : Option Nat
deriving DecidableEq, Repr

/-- Outcome of `subprocess.check_call(command, timeout=timeout)`. -/
inductive CheckCallResult where
  | ok
  | calledProcessError (msg : String)
  | timeoutExpired (msg : String)
deriving DecidableEq, Repr

/-- The execution strategy `_image_export` commits to: run inside a container
(image, command, read-only mounts, read-write mounts, effective timeout) or
run locally (`sudo`-prefixed command, default timeout). -/
inductive ExecPlan where
  | container (image : String) (command : List String) (ro_paths rw_paths : List String)
      (timeout_limit : Nat)
  | localRun (command : List String) (timeout : Nat)
deriving DecidableEq, Repr

/-- Whether the plan is the containerized strategy. -/
def ExecPlan.isContainer : ExecPlan → Bool
  | .container _ _ _ _ _ => true
  | .localRun _ _ => false

/-- Environment consumed by `_image_export`: the resolved configuration
(`config.DOCKER_ENABLED`, `config.ParseDependencies()`), the container
manager collaborator, the local subprocess call, and the state of the
output directory as seen by `os.walk` after execution.
`execute_container` is modelled from the spec: the container-runtime client
is not part of the sampled source; per its stated contract it accepts the
command, ro/rw path lists and a timeout and returns stdout, stderr and the
exit status. -/
structure ExportEnv where
  dockerEnabled : Bool
  dependencies : String → Option JobDependency
  execute_container : String → List String → List String → List String → Nat →
    String × String × Int
  check_call : List String → Nat → CheckCallResult
  walk : String → List (String × List String)

/-- Message of the `TurbiniaException` raised when `image_export.py` exits
non-zero locally. -/
def imageExportFailedMsg (msg : String) : String :=
  "image_export.py failed: " ++ msg

/-- Message of the `TurbiniaException` raised when the local
`image_export.py` run exceeds its timeout; carries the timeout value. -/
def imageExportTimeoutMsg (timeout : Nat) (msg : String) : String :=
  "image_export.py timed out after " ++ toString timeout ++ "s: " ++ msg

/-- The strategy decision of `_image_export` (utils.py lines 50-78): the
dependency entry for the lower-cased job name provides the optional docker
image; containerized execution is taken when `config.DOCKER_ENABLED` holds
and an image is configured, with the job timeout falling back to the
caller's; otherwise the command is run locally with `sudo` prepended. -/
def imageExportPlan (command : List String) (output_dir disk_path : String)
    (timeout : Nat) (dockerEnabled : Bool)
    (dependencies : String → Option JobDependency) : ExecPlan :=
  -- job_name = 'FileArtifactExtractionJob'.lower()
  let job_name := "fileartifactextractionjob"
  let docker_image : Option String :=
    match dependencies job_name with
    | some dep => dep.docker_image
    | none => none
  match dockerEnabled, docker_image with
  | true, some image =>
      let job_timeout :=
        match dependencies job_name with
        | some dep =>
            match dep.timeout with
            | some t => t
            | none => timeout
        | none => timeout
      .container image command [disk_path] [output_dir] job_timeout
  | _, _ => .localRun ("sudo" :: command) timeout

/-- Executes an `ExecPlan`. The containerized branch binds and discards the
collaborator's stdout/stderr/exit status (the source never inspects them);
the local branch wraps `CalledProcessError` and `TimeoutExpired` into
`TurbiniaException`s. -/
def runPlan (plan : ExecPlan) (env : ExportEnv) : Except PyError Unit :=
  match plan with
  | .container image command ro_paths rw_paths timeout_limit =>
      let _discarded := env.execute_container image command ro_paths rw_paths timeout_limit
      .ok ()
  | .localRun command timeout =>
      match env.check_call command timeout with
      | .ok => .ok ()
      | .calledProcessError msg =>
          .error (.turbiniaException (imageExportFailedMsg msg))
      | .timeoutExpired msg =>
          .error (.turbiniaException (imageExportTimeoutMsg timeout msg))

/-- The `os.walk` collection loop of `_image_export` (utils.py lines 80-88):
every filename of every visited directory, joined onto its dirpath. -/
def collectWalk (entries : List (String × List String)) : List String :=
  match entries with
  | [] => []
  | (dirpath, filenames) :: rest =>
      filenames.map (fun filename => osPathJoin dirpath filename) ++ collectWalk rest

/-- `DEFAULT_TIMEOUT` from utils.py. -/
def DEFAULT_TIMEOUT : Nat := 7200

/-- `_image_export(command, output_dir, disk_path, timeout)`: decide the
execution strategy, run it (errors propagate), then walk the output
directory and return every collected file path. -/
def imageExport (command : List String) (output_dir disk_path : String)
    (timeout : Nat) (env : ExportEnv) : Except PyError (List String) :=
  let plan := imageExportPlan command output_dir disk_path timeout
    env.dockerEnabled env.dependencies
  match runPlan plan env with
  | .error e => .error e
  | .ok () => .ok (collectWalk (env.walk output_dir))

/-- `extract_artifacts(artifact_names, disk_path, output_dir, credentials)`:
build the artifact-mode command and delegate to `_image_export` with the
default timeout. No validation of `disk_path` is performed. -/
def extract_artifacts (artifact_names : List String) (disk_path output_dir : String)
    (credentials : List (String × String)) (env : ExportEnv) :
    Except PyError (List String) :=
  imageExport (extractArtifactsCmd artifact_names disk_path output_dir credentials)
    output_dir disk_path DEFAULT_TIMEOUT env

/-- `extract_files(file_name, disk_path, output_dir, credentials)`: raise a
`TurbiniaException` when `disk_path` is falsy (utils.py lines 138-140),
otherwise build the file-mode command and delegate to `_image_export` with
the default timeout. -/
def extract_files (file_name disk_path output_dir : String)
    (credentials : List (String × String)) (env : ExportEnv) :
    Except PyError (List String) :=
  if disk_path = "" then
    .error (.turbiniaException
      "image_export.py failed: Attempted to run with no local_path")
  else
    imageExport (extractFilesCmd file_name disk_path output_dir credentials)
      output_dir disk_path DEFAULT_TIMEOUT env

/-- Whether `needle` occurs as a contiguous run at the head of `hay`. -/
def charsStartWith : List Char → List Char → Bool
  | [], _ => true
  | _ :: _, [] => false
  | c :: cs, d :: ds => c = d && charsStartWith cs ds

/-- Whether `needle` occurs as a contiguous run anywhere in `hay`. -/
def charsContain (needle : List Char) : List Char → Bool
  | [] => needle.isEmpty
  | d :: ds => charsStartWith needle (d :: ds) || charsContain needle ds

/-- Python's `needle in hay` substring test. -/
def pyInStr (needle hay : String) : Bool :=
  charsContain needle.toList hay.toList

/-- Python `line.rsplit(sep, 1)` restricted to the success case: splits at
the LAST occurrence of the separator, `none` when the separator is absent
(where Python's two-variable unpacking raises `ValueError`). -/
def rsplitOnceChars (sep : Char) : List Char → Option (List Char × List Char)
  | [] => none
  | c :: cs =>
      match rsplitOnceChars sep cs with
      | some (l, r) => some (c :: l, r)
      | none => if c = sep then some ([], cs) else none

/-- String-level wrapper of `rsplitOnceChars`. -/
def rsplitOnce (sep : Char) (s : String) : Option (String × String) :=
  match rsplitOnceChars sep s.toList with
  | some (l, r) => some (String.mk l, String.mk r)
  | none => none

/-- The whitespace characters Python's `str.rstrip()` removes (ASCII part). -/
def isPyWhitespace (c : Char) : Bool :=
  c = ' ' || c = '\t' || c = '\n' || c = '\x0d' || c = '\x0b' || c = '\x0c'

/-- Python `s.rstrip()`: drop trailing whitespace. -/
def pyRstrip (s : String) : String :=
  String.mk (s.toList.reverse.dropWhile isPyWhitespace).reverse

/-- The wordlist resolution of `bruteforce_password_hashes` (utils.py lines
198-208): prefer `~/password.lst`, fall back to the system path, and raise
`TurbiniaException` when neither is a file. -/
def resolveWordlist (isfile : String → Bool) : Except PyError String :=
  let password_list_file_path := "~/password.lst"
  let password_list_file_path :=
    if isfile password_list_file_path then password_list_file_path
    else "/usr/share/john/password.lst"
  if isfile password_list_file_path then .ok password_list_file_path
  else .error (.turbiniaException "No password list available")

/-- The rules-file resolution of `bruteforce_password_hashes` (utils.py
lines 211-214): use `~/turbinia-password-cracking.rules` when it is a file,
else the freshly written two-rule temporary file (content linebreak-joined
from a colon identity rule and a `d` mutation rule). -/
def resolveRules (isfile : String → Bool) (tempRulesPath : String) : String :=
  let password_rules_file_path := "~/turbinia-password-cracking.rules"
  if isfile password_rules_file_path then password_rules_file_path
  else tempRulesPath

/-- Tool selection of `bruteforce_password_hashes` (utils.py lines 216-229).
The crypt-format check is a substring test on the CONCATENATION of all
hashes; the john branch replaces the potfile with john's default store.
Returns the command and the effective potfile path. -/
def selectCrackCmd (password_hashes : List String)
    (password_hashes_file_path password_list_file_path
      password_rules_file_path pot_file : String)
    (extra_args : String) : List String × String :=
  if pyInStr "$y$" (pyJoin "" password_hashes) then
    (["john", "--format=crypt", "--wordlist=" ++ password_list_file_path,
      password_hashes_file_path],
     "~/.john/john.pot")
  else
    let cmd := ["hashcat", "--force", "-a", "0"]
    let cmd := if extra_args = "" then cmd else cmd ++ pySplitChar ' ' extra_args
    let cmd := cmd ++ ["--potfile-path=" ++ pot_file]
    let cmd := cmd ++ [password_hashes_file_path, password_list_file_path]
    let cmd := cmd ++ ["-r", password_rules_file_path]
    (cmd, pot_file)

/-- The potfile reading loop of `bruteforce_password_hashes` (utils.py lines
246-251): each line is rsplit on the last colon (a line with no colon makes
the two-variable unpacking raise `ValueError`), the plaintext is
right-stripped, and lines with empty stripped plaintext are skipped. -/
def parsePotLines : List String → Except PyError (List (String × String))
  | [] => .ok []
  | line :: rest =>
      match rsplitOnce ':' line with
      | none => .error .valueError
      | some (password_hash, plaintext) =>
          let plaintext := pyRstrip plaintext
          match parsePotLines rest with
          | .error e => .error e
          | .ok result =>
              .ok (if plaintext = "" then result else (password_hash, plaintext) :: result)

/-- Environment consumed by `bruteforce_password_hashes`: pre-execution
filesystem probes (`os.path.isfile`), the names of the two
`NamedTemporaryFile`s it creates, `tempfile.gettempdir()`, whether `Popen`
raised `OSError` (with its message), whether the watchdog timer fired, and
the potfile contents visible after the tool ran (`none` when the file does
not exist). -/
structure CrackEnv where
  isfile : String → Bool
  hashFilePath : String
  tempRulesPath : String
  defaultTmpDir : String
  popenError : Option String
  timedOut : Bool
  readPot : String → Option (List String)

/-- Observable outcome of a successful `bruteforce_password_hashes` run:
the command executed, the potfile path it read, the resolved wordlist and
rules paths, the (hash, plaintext) pairs returned, and whether the potfile
was deleted (`os.remove`) after reading. -/
structure CrackOutput where
  cmd : List String
  potPath : String
  wordlist : String
  rulesPath : String
  result : List (String × String)
  potRemoved : Bool
deriving DecidableEq, Repr

/-- `bruteforce_password_hashes(password_hashes, tmp_dir, timeout,
extra_args)`: write the hash file, resolve potfile/wordlist/rules, select
the tool, run it under the watchdog (the timer firing is not an error and
does not influence anything afterwards), then harvest and delete the
potfile if it exists, returning the empty result when it does not. -/
def bruteforce_password_hashes (password_hashes : List String) (tmp_dir : String)
    (timeout : Nat) (extra_args : String) (env : CrackEnv) :
    Except PyError CrackOutput :=
  let pot_file :=
    osPathJoin (if tmp_dir = "" then env.defaultTmpDir else tmp_dir) "hashcat.pot"
  match resolveWordlist env.isfile with
  | .error e => .error e
  | .ok password_list_file_path =>
    let password_rules_file_path := resolveRules env.isfile env.tempRulesPath
    let cmdPot := selectCrackCmd password_hashes env.hashFilePath
      password_list_file_path password_rules_file_path pot_file extra_args
    let cmd := cmdPot.1
    let pot_file := cmdPot.2
    match env.popenError with
    | some msg =>
        .error (.turbiniaException (pyJoin " " cmd ++ " failed: " ++ msg))
    | none =>
        match env.readPot pot_file with
        | some potLines =>
            match parsePotLines potLines with
            | .error e => .error e
            | .ok result =>
                .ok ⟨cmd, pot_file, password_list_file_path,
                     password_rules_file_path, result, true⟩
        | none =>
            .ok ⟨cmd, pot_file, password_list_file_path,
                 password_rules_file_path, [], false⟩

/-- The claim's description of the surviving potfile pairs, written after the
spec's words: keep, in file order, each line's last-colon split with
right-stripped plaintext, skipping lines whose stripped plaintext is empty.
Compared against the source-translated `parsePotLines`. -/
def specCrackedPairs (potLines : List String) : List (String × String) :=
  potLines.filterMap (fun line =>
    match rsplitOnce ':' line with
    | none => none
    | some (password_hash, plaintext) =>
        let plaintext := pyRstrip plaintext
        if plaintext = "" then none else some (password_hash, plaintext))

theorem parsePotLines_eq_spec (potLines : List String)
    (h : ∀ line ∈ potLines, (rsplitOnce ':' line).isSome) :
    parsePotLines potLines = .ok (specCrackedPairs potLines) := by
  induction potLines with
  | nil => rfl
  | cons line rest ih =>
      have hline : (rsplitOnce ':' line).isSome := h line (List.mem_cons_self line rest)
      have hrest : ∀ l ∈ rest, (rsplitOnce ':' l).isSome :=
        fun l hl => h l (List.mem_cons_of_mem line hl)
      obtain ⟨pair, hpair⟩ := Option.isSome_iff_exists.mp hline
      obtain ⟨ph, pt⟩ := pair
      simp only [parsePotLines, specCrackedPairs, List.filterMap_cons, hpair, ih hrest]
      by_cases hempty : pyRstrip pt = "" <;> simp [hempty, specCrackedPairs]

theorem imageExportPlan_localRun (command : List String) (output_dir disk_path : String)
    (timeout : Nat) (dockerEnabled : Bool)
    (dependencies : String → Option JobDependency)
    (h : dockerEnabled = false ∨
      (dependencies "fileartifactextractionjob").bind JobDependency.docker_image = none) :
    imageExportPlan command output_dir disk_path timeout dockerEnabled dependencies =
      .localRun ("sudo" :: command) timeout := by
  unfold imageExportPlan
  rcases h with h | h
  · subst h
    cases hdep : dependencies "fileartifactextractionjob" <;> simp [hdep]
  · cases hdep : dependencies "fileartifactextractionjob" with
    | none => cases dockerEnabled <;> simp [hdep]
    | some dep =>
        rw [hdep] at h
        simp only [Option.bind] at h
        cases dockerEnabled <;> simp [hdep, h]

theorem imageExportPlan_container (command : List String) (output_dir disk_path : String)
    (timeout : Nat) (dependencies : String → Option JobDependency) (image : String)
    (h : (dependencies "fileartifactextractionjob").bind JobDependency.docker_image =
      some image) :
    imageExportPlan command output_dir disk_path timeout true dependencies =
      .container image command [disk_path] [output_dir]
        (((dependencies "fileartifactextractionjob").bind JobDependency.timeout).getD
          timeout) := by
  unfold imageExportPlan
  cases hdep : dependencies "fileartifactextractionjob" with
  | none => rw [hdep] at h; simp at h
  | some dep =>
      rw [hdep] at h
      simp only [Option.bind] at h
      cases htime : dep.timeout <;> simp [hdep, h, htime]

theorem imageExportPlan_isContainer (command : List String) (output_dir disk_path : String)
    (timeout : Nat) (dockerEnabled : Bool)
    (dependencies : String → Option JobDependency) :
    (imageExportPlan command output_dir disk_path timeout dockerEnabled
        dependencies).isContainer =
      (dockerEnabled &&
        ((dependencies "fileartifactextractionjob").bind JobDependency.docker_image).isSome) := by
  unfold imageExportPlan
  cases hdep : dependencies "fileartifactextractionjob" with
  | none => cases dockerEnabled <;> simp [hdep, ExecPlan.isContainer]
  | some dep =>
      cases dockerEnabled <;> cases himg : dep.docker_image <;>
        simp [hdep, himg, ExecPlan.isContainer]

theorem imageExportFailedMsg_ne_timeoutMsg (m1 : String) (t : Nat) (m2 : String) :
    imageExportFailedMsg m1 ≠ imageExportTimeoutMsg t m2 := by
  intro h
  have hd : ("image_export.py failed: ").data ++ m1.data =
      ("image_export.py timed out after ").data ++
        ((toString t).data ++ (("s: ").data ++ m2.data)) := by
    have h0 := congrArg String.data h
    simp only [imageExportFailedMsg, imageExportTimeoutMsg, String.data_append,
      List.append_assoc] at h0
    exact h0
  have h16 : (("image_export.py failed: ").data ++ m1.data)[16]? =
      (("image_export.py timed out after ").data ++
        ((toString t).data ++ (("s: ").data ++ m2.data)))[16]? :=
    congrArg (fun l => l[16]?) hd
  rw [List.getElem?_append_left (by decide),
    List.getElem?_append_left (by decide)] at h16
  exact absurd h16 (by decide)

theorem extractArtifactsCmd_eq (artifact_names : List String)
    (disk_path output_dir : String) (credentials : List (String × String)) :
    extractArtifactsCmd artifact_names disk_path output_dir credentials =
      ["image_export.py", "--artifact_filters", pyJoin "," artifact_names,
       "--write", output_dir, "--partitions", "all", "--volumes", "all",
       "--unattended"] ++ credentialArgs credentials ++ [disk_path] := by
  unfold extractArtifactsCmd
  cases credentials with
  | nil => simp [credentialArgs]
  | cons c rest => simp [List.isEmpty]

theorem extractFilesCmd_eq (file_name : String)
    (disk_path output_dir : String) (credentials : List (String × String)) :
    extractFilesCmd file_name disk_path output_dir credentials =
      ["image_export.py", "--name", file_name, "--write", output_dir,
       "--partitions", "all", "--volumes", "all"] ++
        credentialArgs credentials ++ [disk_path] := by
  unfold extractFilesCmd
  cases credentials with
  | nil => simp [credentialArgs]
  | cons c rest => simp [List.isEmpty]

/-- A concrete extraction environment: docker disabled, no dependency
entries, local execution succeeds, and one file under the output dir. -/
def sampleExportEnv : ExportEnv where
  dockerEnabled := false
  dependencies := fun _ => none
  execute_container := fun _ _ _ _ _ => ("", "", 0)
  check_call := fun _ _ => .ok
  walk := fun _ => [("/out", ["f1"])]

/-- A concrete dependency map giving the extraction job a docker image and a
job-specific timeout. -/
def dockerExportDeps : String → Option JobDependency :=
  fun job_name =>
    if job_name = "fileartifactextractionjob" then
      some ⟨some "log2timeline/plaso", some 1234⟩
    else none

/-- A concrete extraction environment whose local subprocess call fails with
a non-zero exit. -/
def failingExportEnv : ExportEnv where
  dockerEnabled := false
  dependencies := fun _ => none
  execute_container := fun _ _ _ _ _ => ("", "", 0)
  check_call := fun _ _ => .calledProcessError "exit status 1"
  walk := fun _ => []

/-- C1: extract_artifacts builds the image_export.py argument list with
comma-joined artifact filters, the write/partitions/volumes/unattended
flags, one credential pair per credential in input order, and the disk path
last; extract_files builds the same list with `--name file_name` in place of
the artifact filters and without `--unattended`. -/
theorem c1_command_construction (artifact_names : List String)
    (file_name disk_path output_dir : String)
    (credentials : List (String × String)) :
    extractArtifactsCmd artifact_names disk_path output_dir credentials =
      ["image_export.py", "--artifact_filters", pyJoin "," artifact_names,
       "--write", output_dir, "--partitions", "all", "--volumes", "all",
       "--unattended"] ++ credentialArgs credentials ++ [disk_path] ∧
    extractFilesCmd file_name disk_path output_dir credentials =
      ["image_export.py", "--name", file_name, "--write", output_dir,
       "--partitions", "all", "--volumes", "all"] ++
        credentialArgs credentials ++ [disk_path] :=
  ⟨extractArtifactsCmd_eq artifact_names disk_path output_dir credentials,
   extractFilesCmd_eq file_name disk_path output_dir credentials⟩

/-- C6: extract_files with an empty disk path fails immediately with the
configuration `TurbiniaException`, for EVERY environment — so before any
command is built and before any process is launched. -/
theorem c6_extract_files_empty_disk_path_fails_fast
    (file_name output_dir : String) (credentials : List (String × String))
    (env : ExportEnv) :
    extract_files file_name "" output_dir credentials env =
      .error (.turbiniaException
        "image_export.py failed: Attempted to run with no local_path") := rfl

/-- C10: extract_artifacts performs no disk-path validation: with the empty
disk path it still builds the command and proceeds to execution (here a
successful local run returning the walked files), while extract_files with
the same empty disk path fails fast with the configuration error. -/
theorem c10_extract_artifacts_no_disk_path_validation
    (artifact_names : List String) (output_dir : String)
    (credentials : List (String × String)) (env : ExportEnv)
    (hdocker : env.dockerEnabled = false)
    (hcall : env.check_call
      ("sudo" :: extractArtifactsCmd artifact_names "" output_dir credentials)
      DEFAULT_TIMEOUT = .ok) :
    extract_artifacts artifact_names "" output_dir credentials env =
      .ok (collectWalk (env.walk output_dir)) ∧
    (∀ file_name, extract_files file_name "" output_dir credentials env =
      .error (.turbiniaException
        "image_export.py failed: Attempted to run with no local_path")) := by
  constructor
  · unfold extract_artifacts imageExport
    rw [imageExportPlan_localRun _ _ _ _ _ _ (Or.inl hdocker)]
    simp [runPlan, hcall]
  · intro file_name
    rfl

theorem c10_extract_artifacts_no_disk_path_validation_witness :
    sampleExportEnv.dockerEnabled = false ∧
    sampleExportEnv.check_call
      ("sudo" :: extractArtifactsCmd ["WindowsEventLogs"] "" "/out" [])
      DEFAULT_TIMEOUT = .ok ∧
    extract_artifacts ["WindowsEventLogs"] "" "/out" [] sampleExportEnv =
      .ok (collectWalk (sampleExportEnv.walk "/out")) :=
  ⟨rfl, rfl,
   (c10_extract_artifacts_no_disk_path_validation ["WindowsEventLogs"] "/out" []
     sampleExportEnv rfl rfl).1⟩

/-- C4: containerized execution is chosen iff the docker-enabled flag is set
and the job's dependency entry has a docker image; when containerized, the
effective timeout is the job-specific override when present, else the
caller-supplied default, with the disk path mounted read-only and the output
directory read-write; when not containerized, the command runs locally with
`sudo` prepended and the default timeout. -/
theorem c4_execution_strategy (command : List String)
    (output_dir disk_path : String) (timeout : Nat) (dockerEnabled : Bool)
    (dependencies : String → Option JobDependency) :
    ((imageExportPlan command output_dir disk_path timeout dockerEnabled
        dependencies).isContainer =
      (dockerEnabled &&
        ((dependencies "fileartifactextractionjob").bind
          JobDependency.docker_image).isSome)) ∧
    (∀ image, dockerEnabled = true →
      (dependencies "fileartifactextractionjob").bind JobDependency.docker_image =
        some image →
      imageExportPlan command output_dir disk_path timeout dockerEnabled
          dependencies =
        .container image command [disk_path] [output_dir]
          (((dependencies "fileartifactextractionjob").bind
            JobDependency.timeout).getD timeout)) ∧
    ((dockerEnabled = false ∨
      (dependencies "fileartifactextractionjob").bind JobDependency.docker_image =
        none) →
      imageExportPlan command output_dir disk_path timeout dockerEnabled
          dependencies =
        .localRun ("sudo" :: command) timeout) := by
  refine ⟨imageExportPlan_isContainer _ _ _ _ _ _, fun image hde himg => ?_,
    fun h => imageExportPlan_localRun _ _ _ _ _ _ h⟩
  subst hde
  exact imageExportPlan_container _ _ _ _ _ image himg

theorem c4_execution_strategy_witness :
    (dockerExportDeps "fileartifactextractionjob").bind JobDependency.docker_image =
      some "log2timeline/plaso" ∧
    imageExportPlan ["image_export.py"] "/out" "/disk" 7200 true dockerExportDeps =
      .container "log2timeline/plaso" ["image_export.py"] ["/disk"] ["/out"] 1234 ∧
    imageExportPlan ["image_export.py"] "/out" "/disk" 7200 false dockerExportDeps =
      .localRun ["sudo", "image_export.py"] 7200 := by
  refine ⟨by decide, ?_, ?_⟩
  · have h := (c4_execution_strategy ["image_export.py"] "/out" "/disk" 7200
      true dockerExportDeps).2.1 "log2timeline/plaso" rfl (by decide)
    exact h.trans (by decide)
  · exact (c4_execution_strategy ["image_export.py"] "/out" "/disk" 7200
      false dockerExportDeps).2.2 (Or.inl rfl)

/-- C5: in a local extraction run, a non-zero exit produces the
`TurbiniaException` whose message wraps the underlying message, exceeding
the timeout produces the `TurbiniaException` whose message carries the
configured timeout value, and the two message forms can never coincide, so
the single error type is distinguishable by kind. -/
theorem c5_local_failure_kinds (command : List String)
    (output_dir disk_path : String) (timeout : Nat) (env : ExportEnv)
    (hlocal : env.dockerEnabled = false ∨
      (env.dependencies "fileartifactextractionjob").bind
        JobDependency.docker_image = none) :
    (∀ msg, env.check_call ("sudo" :: command) timeout = .calledProcessError msg →
       imageExport command output_dir disk_path timeout env =
         .error (.turbiniaException (imageExportFailedMsg msg))) ∧
    (∀ msg, env.check_call ("sudo" :: command) timeout = .timeoutExpired msg →
       imageExport command output_dir disk_path timeout env =
         .error (.turbiniaException (imageExportTimeoutMsg timeout msg))) ∧
    (∀ m1 t m2, imageExportFailedMsg m1 ≠ imageExportTimeoutMsg t m2) := by
  refine ⟨fun msg hmsg => ?_, fun msg hmsg => ?_,
    fun m1 t m2 => imageExportFailedMsg_ne_timeoutMsg m1 t m2⟩ <;>
  · unfold imageExport
    rw [imageExportPlan_localRun _ _ _ _ _ _ hlocal]
    simp [runPlan, hmsg]

theorem c5_local_failure_kinds_witness :
    failingExportEnv.dockerEnabled = false ∧
    failingExportEnv.check_call ["sudo", "image_export.py"] 7200 =
      .calledProcessError "exit status 1" ∧
    imageExport ["image_export.py"] "/out" "/disk" 7200 failingExportEnv =
      .error (.turbiniaException (imageExportFailedMsg "exit status 1")) :=
  ⟨rfl, rfl,
   (c5_local_failure_kinds ["image_export.py"] "/out" "/disk" 7200
     failingExportEnv (Or.inl rfl)).1 "exit status 1" rfl⟩

/-- C8: whenever extraction succeeds the returned list is exactly the files
collected by walking the output directory after execution; any execution
failure propagates unchanged with no partial file list; and the result never
depends on the container collaborator's captured stdout/stderr/exit status
(the tool's output is not parsed for file lists). -/
theorem c8_walk_is_authoritative (command : List String)
    (output_dir disk_path : String) (timeout : Nat) (env : ExportEnv) :
    (∀ files, imageExport command output_dir disk_path timeout env = .ok files →
       files = collectWalk (env.walk output_dir)) ∧
    (∀ e, runPlan (imageExportPlan command output_dir disk_path timeout
        env.dockerEnabled env.dependencies) env = .error e →
       imageExport command output_dir disk_path timeout env = .error e) ∧
    (∀ f g, imageExport command output_dir disk_path timeout
        { env with execute_container := f } =
      imageExport command output_dir disk_path timeout
        { env with execute_container := g }) := by
  refine ⟨fun files hok => ?_, fun e herr => ?_, fun f g => ?_⟩
  · cases hrun : runPlan (imageExportPlan command output_dir disk_path timeout
        env.dockerEnabled env.dependencies) env with
    | error e => simp [imageExport, hrun] at hok
    | ok u =>
        simp [imageExport, hrun] at hok
        exact hok.symm
  · simp [imageExport, herr]
  · cases hplan : imageExportPlan command output_dir disk_path timeout
        env.dockerEnabled env.dependencies with
    | container i c ro rw tl => simp [imageExport, runPlan, hplan]
    | localRun c t => simp [imageExport, runPlan, hplan]

theorem c8_walk_is_authoritative_witness :
    imageExport ["image_export.py"] "/out" "/disk" 7200 sampleExportEnv =
      .ok ["/out/f1"] ∧
    ["/out/f1"] = collectWalk (sampleExportEnv.walk "/out") :=
  ⟨rfl,
   (c8_walk_is_authoritative ["image_export.py"] "/out" "/disk" 7200
     sampleExportEnv).1 ["/out/f1"] rfl⟩

/-- A concrete cracking environment with no wordlist anywhere. -/
def noWordlistCrackEnv : CrackEnv where
  isfile := fun _ => false
  hashFilePath := "/tmp/hashes"
  tempRulesPath := "/tmp/rules"
  defaultTmpDir := "/tmp"
  popenError := none
  timedOut := false
  readPot := fun _ => none

/-- A concrete cracking environment: the user wordlist exists, no rules
file, and a three-line potfile at the hashcat potfile path. -/
def sampleCrackEnv : CrackEnv where
  isfile := fun p => p = "~/password.lst"
  hashFilePath := "/tmp/hashes"
  tempRulesPath := "/tmp/rules"
  defaultTmpDir := "/tmp"
  popenError := none
  timedOut := false
  readPot := fun p =>
    if p = "/tmp/hashcat.pot" then some ["abc:pass:word", "h:", "x:y"] else none

/-- Same as `sampleCrackEnv` but the potfile holds a line with no colon. -/
def badPotCrackEnv : CrackEnv where
  isfile := fun p => p = "~/password.lst"
  hashFilePath := "/tmp/hashes"
  tempRulesPath := "/tmp/rules"
  defaultTmpDir := "/tmp"
  popenError := none
  timedOut := false
  readPot := fun _ => some ["nocolonline"]

/-- C7: the wordlist is resolved by preferring the user password list,
falling back to the system path when the user list is absent; when neither
exists, `bruteforce_password_hashes` fails immediately with the
configuration `TurbiniaException` for every environment — in particular
regardless of the execution and potfile state, so no cracking tool is
invoked. -/
theorem c7_wordlist_resolution (password_hashes : List String)
    (tmp_dir : String) (timeout : Nat) (extra_args : String)
    (env : CrackEnv) (isfile : String → Bool) :
    (isfile "~/password.lst" = true →
       resolveWordlist isfile = .ok "~/password.lst") ∧
    (isfile "~/password.lst" = false →
      isfile "/usr/share/john/password.lst" = true →
       resolveWordlist isfile = .ok "/usr/share/john/password.lst") ∧
    (env.isfile "~/password.lst" = false →
      env.isfile "/usr/share/john/password.lst" = false →
       bruteforce_password_hashes password_hashes tmp_dir timeout extra_args env =
         .error (.turbiniaException "No password list available")) := by
  refine ⟨fun h1 => ?_, fun h1 h2 => ?_, fun h1 h2 => ?_⟩
  · simp [resolveWordlist, h1]
  · simp [resolveWordlist, h1, h2]
  · have hw : resolveWordlist env.isfile =
        .error (.turbiniaException "No password list available") := by
      simp [resolveWordlist, h1, h2]
    simp [bruteforce_password_hashes, hw]

theorem c7_wordlist_resolution_witness :
    noWordlistCrackEnv.isfile "~/password.lst" = false ∧
    noWordlistCrackEnv.isfile "/usr/share/john/password.lst" = false ∧
    bruteforce_password_hashes ["h1"] "/tmp" 300 "" noWordlistCrackEnv =
      .error (.turbiniaException "No password list available") :=
  ⟨rfl, rfl,
   (c7_wordlist_resolution ["h1"] "/tmp" 300 "" noWordlistCrackEnv
     noWordlistCrackEnv.isfile).2.2 rfl rfl⟩

/-- C3 fails on the code: the crypt-marker test is a substring test on the
CONCATENATION of the hashes, so for `["a$y", "$b"]` no individual hash
contains the `$y$` marker yet john is selected rather than the claimed
hashcat command; moreover extra arguments are split on the single space
character, so `"a  b"` contributes an empty token where whitespace
tokenization would give `["a", "b"]`. -/
theorem c3_tool_selection_counterexample :
    (∀ h ∈ ["a$y", "$b"], pyInStr "$y$" h = false) ∧
    (selectCrackCmd ["a$y", "$b"] "/tmp/hashes" "~/password.lst" "/tmp/rules"
        "/tmp/hashcat.pot" "").1 =
      ["john", "--format=crypt", "--wordlist=~/password.lst", "/tmp/hashes"] ∧
    (selectCrackCmd ["h1"] "/tmp/hashes" "~/password.lst" "/tmp/rules"
        "/tmp/hashcat.pot" "a  b").1 =
      ["hashcat", "--force", "-a", "0", "a", "", "b",
       "--potfile-path=/tmp/hashcat.pot", "/tmp/hashes", "~/password.lst",
       "-r", "/tmp/rules"] ∧
    (selectCrackCmd ["h1"] "/tmp/hashes" "~/password.lst" "/tmp/rules"
        "/tmp/hashcat.pot" "a  b").1 ≠
      ["hashcat", "--force", "-a", "0", "a", "b",
       "--potfile-path=/tmp/hashcat.pot", "/tmp/hashes", "~/password.lst",
       "-r", "/tmp/rules"] := by decide

/-- C3 amended: if the CONCATENATION of the input hashes contains the
crypt-format marker `$y$`, john is selected with the format flag, the
wordlist and the hash file, and john's default result store replaces the
potfile path; otherwise hashcat is selected with forced dictionary mode,
the caller's extra arguments split on the single space character when
non-empty, the explicit potfile path, the hash file, the wordlist and the
rules file. -/
theorem c3_tool_selection_amended (password_hashes : List String)
    (hash_file wordlist rules pot extra_args : String) :
    (pyInStr "$y$" (pyJoin "" password_hashes) = true →
       selectCrackCmd password_hashes hash_file wordlist rules pot extra_args =
         (["john", "--format=crypt", "--wordlist=" ++ wordlist, hash_file],
          "~/.john/john.pot")) ∧
    (pyInStr "$y$" (pyJoin "" password_hashes) = false →
       selectCrackCmd password_hashes hash_file wordlist rules pot extra_args =
         (["hashcat", "--force", "-a", "0"] ++
            (if extra_args = "" then [] else pySplitChar ' ' extra_args) ++
            ["--potfile-path=" ++ pot] ++ [hash_file, wordlist] ++
            ["-r", rules], pot)) := by
  constructor <;> intro h
  · simp [selectCrackCmd, h]
  · by_cases he : extra_args = "" <;> simp [selectCrackCmd, h, he]

theorem c3_tool_selection_amended_witness :
    pyInStr "$y$" (pyJoin "" ["$y$abc"]) = true ∧
    selectCrackCmd ["$y$abc"] "/tmp/hashes" "~/password.lst" "/tmp/rules"
        "/tmp/hashcat.pot" "" =
      (["john", "--format=crypt", "--wordlist=~/password.lst", "/tmp/hashes"],
       "~/.john/john.pot") := by
  refine ⟨by decide, ?_⟩
  have h := (c3_tool_selection_amended ["$y$abc"] "/tmp/hashes"
    "~/password.lst" "/tmp/rules" "/tmp/hashcat.pot" "").1 (by decide)
  have hw : ("--wordlist=" ++ "~/password.lst" : String) =
      "--wordlist=~/password.lst" := rfl
  rw [hw] at h
  exact h

/-- C2: with the wordlist resolved and the tool launched, the result is
independent of whether the watchdog timer fired; when the potfile is absent
the call returns the empty result with no error and no deletion; when the
potfile exists and every line carries a colon, the returned pairs are, in
file order, each line's last-colon split with right-stripped plaintext,
empty-plaintext lines skipped, and the potfile is deleted after reading. -/
theorem c2_pot_file_harvesting (password_hashes : List String)
    (tmp_dir : String) (timeout : Nat) (extra_args : String) (env : CrackEnv)
    (wordlist : String) (cmd : List String) (potPath : String)
    (hw : resolveWordlist env.isfile = .ok wordlist)
    (hsel : selectCrackCmd password_hashes env.hashFilePath wordlist
        (resolveRules env.isfile env.tempRulesPath)
        (osPathJoin (if tmp_dir = "" then env.defaultTmpDir else tmp_dir)
          "hashcat.pot")
        extra_args = (cmd, potPath))
    (hp : env.popenError = none) :
    (∀ b, bruteforce_password_hashes password_hashes tmp_dir timeout extra_args
        { env with timedOut := b } =
      bruteforce_password_hashes password_hashes tmp_dir timeout extra_args env) ∧
    (env.readPot potPath = none →
       bruteforce_password_hashes password_hashes tmp_dir timeout extra_args env =
         .ok ⟨cmd, potPath, wordlist, resolveRules env.isfile env.tempRulesPath,
              [], false⟩) ∧
    (∀ potLines, env.readPot potPath = some potLines →
       (∀ line ∈ potLines, (rsplitOnce ':' line).isSome) →
       bruteforce_password_hashes password_hashes tmp_dir timeout extra_args env =
         .ok ⟨cmd, potPath, wordlist, resolveRules env.isfile env.tempRulesPath,
              specCrackedPairs potLines, true⟩) := by
  refine ⟨fun b => rfl, fun hnone => ?_, fun potLines hsome hcolon => ?_⟩
  · simp [bruteforce_password_hashes, hw, hsel, hp, hnone]
  · simp [bruteforce_password_hashes, hw, hsel, hp, hsome,
      parsePotLines_eq_spec potLines hcolon]

theorem c2_pot_file_harvesting_witness :
    resolveWordlist sampleCrackEnv.isfile = .ok "~/password.lst" ∧
    sampleCrackEnv.popenError = none ∧
    sampleCrackEnv.readPot "/tmp/hashcat.pot" =
      some ["abc:pass:word", "h:", "x:y"] ∧
    bruteforce_password_hashes ["h1"] "/tmp" 300 "" sampleCrackEnv =
      .ok ⟨["hashcat", "--force", "-a", "0", "--potfile-path=/tmp/hashcat.pot",
            "/tmp/hashes", "~/password.lst", "-r", "/tmp/rules"],
           "/tmp/hashcat.pot", "~/password.lst", "/tmp/rules",
           [("abc:pass", "word"), ("x", "y")], true⟩ := by
  refine ⟨rfl, rfl, rfl, ?_⟩
  have h := (c2_pot_file_harvesting ["h1"] "/tmp" 300 "" sampleCrackEnv
    "~/password.lst"
    ["hashcat", "--force", "-a", "0", "--potfile-path=/tmp/hashcat.pot",
     "/tmp/hashes", "~/password.lst", "-r", "/tmp/rules"]
    "/tmp/hashcat.pot" rfl rfl rfl).2.2
    ["abc:pass:word", "h:", "x:y"] rfl (by decide)
  exact h.trans (congrArg Except.ok (by rfl))

/-- C9: the potfile parsing is partial in the source: a result-store line
with no colon makes `bruteforce_password_hashes` fail with `ValueError`
from the right-split unpacking, which is not the domain `TurbiniaException`
of any message, and it does not skip the line (no `.ok` result at all). -/
theorem c9_no_colon_line_raises_valueerror :
    bruteforce_password_hashes ["h1"] "/tmp" 300 "" badPotCrackEnv =
      .error .valueError ∧
    parsePotLines ["nocolonline"] = .error .valueError ∧
    (∀ msg, (PyError.valueError : PyError) ≠ .turbiniaException msg) :=
  ⟨rfl, rfl, fun msg h => by cases h⟩

end Turbinia
